import Mathlib

/-!
Shallow embedding of the FastAPI blog application (src/main.py, src/models.py):
the in-memory post store, the relational user table, the route handlers, and the
two error-normalization handlers, together with theorems settling the spec claims.

Python strings are modelled as Lean `String`; `str.startswith` is modelled on the
character list of the string (Lean's byte-level `String.startsWith` is
semantically identical but does not reduce in the kernel). Machine integers in
Python are unbounded, so ids are `Int`. A handler that can `raise HTTPException`
is modelled as returning `Except HTTPExc _`; the registered exception handlers
are separate functions applied to the raised exception and the request path,
exactly as FastAPI dispatches them.
-/

namespace FastapiBlogs

/-- Python `str.startswith` on character lists: the first argument is the
candidate leading substring, the second the full character sequence. -/
def charsStartWith : List Char → List Char → Bool
  | [], _ => true
  | _ :: _, [] => false
  | c :: cs, d :: ds => c == d && charsStartWith cs ds

/-- Model of Python `s.startswith(pre)` for Lean strings, via their character lists. -/
def str_startswith (s pre : String) : Bool := charsStartWith pre.data s.data

/-- Python truthiness of an optional string: `None` and the empty string are falsy. -/
def strOptTruthy : Option String → Bool
  | none => false
  | some s => !s.isEmpty

/-- A raised `HTTPException` (fastapi/starlette): a status code and an optional detail
message, as received by the registered exception handler. -/
structure HTTPExc where
  status_code : Nat
  detail : Option String
deriving DecidableEq

/-- An in-memory post, exactly the dict shape built in src/main.py (lines 25-40, 112-118). -/
structure Post where
  id : Int
  author : String
  title : String
  content : String
  date_posted : String
deriving DecidableEq

/-- Modelled from the spec: schemas.py is not under src; per the spec the create-post
request body is three non-empty strings: title, content, author. -/
structure PostCreate where
  title : String
  content : String
  author : String
deriving DecidableEq

/-- Modelled from the spec: schemas.py is not under src; per the spec the API
serializes a post as the object with fields id, author, title, content, date_posted. -/
structure PostResponse where
  id : Int
  author : String
  title : String
  content : String
  date_posted : String
deriving DecidableEq

/-- The response-model projection of a stored post (all five fields). -/
def postProjection (p : Post) : PostResponse :=
  { id := p.id, author := p.author, title := p.title,
    content := p.content, date_posted := p.date_posted }

/-- A durable user row of models.py: integer primary key, unique username and email,
nullable image_file defaulting to NULL. -/
structure User where
  id : Int
  username : String
  email : String
  image_file : Option String
deriving DecidableEq

/-- models.py User.image_path: the media path derived from image_file when it is
truthy, else the default avatar path. -/
def User.image_path (u : User) : String :=
  match u.image_file with
  | some f => if f.isEmpty then "/static/profile_pics/default.jpg" else "/media/profile_pics/" ++ f
  | none => "/static/profile_pics/default.jpg"

/-- Modelled from the spec: schemas.py is not under src; per the spec the create-user
request body is a username, an email, and an optional image. -/
structure UserCreate where
  username : String
  email : String
  image : Option String
deriving DecidableEq

/-- The result object returned by db.execute (a SQLAlchemy Result wrapper over the
matched rows). As a plain Python object it is always truthy. -/
structure SAResult where
  rows : List User
deriving DecidableEq

/-- Python truthiness of a Result object: always true. -/
def SAResult.isTruthy (_ : SAResult) : Bool := true

/-- The module-level initial posts list of src/main.py (lines 25-40). -/
def posts : List Post :=
  [ { id := 1, author := "Corey Schafer", title := "FastAPI is Awesome",
      content := "This framework is really easy to use and super fast.",
      date_posted := "April 20, 2025" },
    { id := 2, author := "Jane Doe", title := "Python is Great for Web Development",
      content := "Python is a great language for web development, and FastAPI makes it even better.",
      date_posted := "April 21, 2025" } ]

/-- The body of an HTTP response: a JSON detail object, a JSON list of structured
field errors, JSON projections, JSON null (a handler returning None), or a rendered
template with its context. -/
inductive Body where
  | jsonDetail (detail : String)
  | jsonErrors (errors : List String)
  | jsonPost (post : PostResponse)
  | jsonPosts (posts : List PostResponse)
  | jsonNull
  | errorPage (status_code : Nat) (title : Option Nat) (message : String)
  | postPageHtml (post : Post) (title : String)
deriving DecidableEq

/-- An HTTP response: status code and body. -/
structure Response where
  status_code : Nat
  body : Body
deriving DecidableEq

/-- src/main.py lines 48-55, GET /posts/\x7bpost_id\x7d: linear scan of the store; on a hit,
render post.html with the title truncated to 50 characters; on a miss, render error.html
with a context carrying 404 and the message, but with no status_code argument to
TemplateResponse, whose default HTTP status is 200. -/
def post_page (ps : List Post) (post_id : Int) : Response :=
  match ps.find? (fun p => p.id == post_id) with
  | some post => { status_code := 200, body := .postPageHtml post (post.title.take 50) }
  | none => { status_code := 200, body := .errorPage 404 none "Post not found" }

/-- Modelled from the spec: the relational engine assigns the integer primary key on
insert (store-assigned, autoincrementing); modelled as one more than the current
maximum id, or 1 on an empty table. The claims do not depend on the exact value. -/
def nextUserId (table : List User) : Int :=
  match (table.map (fun u => u.id)).max? with
  | some m => m + 1
  | none => 1

/-- src/main.py lines 58-83, POST /api/users: first-row lookup by username, then by
email, each raising 400 on a hit; otherwise insert a user built from username and
email only (image_file takes its default NULL) and return it. -/
def create_user (table : List User) (user : UserCreate) : Except HTTPExc (User × List User) :=
  match table.find? (fun u => u.username == user.username) with
  | some _ => .error { status_code := 400, detail := some "Username already exists" }
  | none =>
    match table.find? (fun u => u.email == user.email) with
    | some _ => .error { status_code := 400, detail := some "Email already exists" }
    | none =>
      let new_user : User :=
        { id := nextUserId table, username := user.username,
          email := user.email, image_file := none }
      .ok (new_user, table ++ [new_user])

/-- src/main.py lines 86-93, GET /api/users/\x7buser_id\x7d: the select passes the id as a
keyword to where, which does not produce a filter on the id column (the spec: the
lookup queries unconditionally, ignoring the id); the handler then tests the
truthiness of the Result object itself, which is always truthy, so the 404 branch
is unreachable and the raw result is returned. -/
def get_user (table : List User) (user_id : Int) : Except HTTPExc SAResult :=
  let user : SAResult := { rows := table }
  if !user.isTruthy then
    .error { status_code := 404, detail := some "User not Found" }
  else
    .ok user

/-- src/main.py lines 95-97, GET /api/posts: return the store, serialized through the
list of post projections; the store is not written. -/
def get_posts (ps : List Post) : List PostResponse × List Post :=
  (ps.map postProjection, ps)

/-- src/main.py lines 100-106, GET /api/posts/\x7bpost_id\x7d: linear scan; first hit is
returned, otherwise raise 404 with detail Post not found. -/
def get_post (ps : List Post) (post_id : Int) : Except HTTPExc Post :=
  match ps.find? (fun p => p.id == post_id) with
  | some post => .ok post
  | none => .error { status_code := 404, detail := some "Post not found" }

/-- src/main.py lines 109-120, POST /api/posts: the new id is max of the stored ids
plus one if the store is nonempty, else 1; the new post is appended and returned.
date_posted is the fixed literal of line 117. -/
def create_post (ps : List Post) (post : PostCreate) : Post × List Post :=
  let post_id : Int :=
    match (ps.map (fun p => p.id)).max? with
    | some m => m + 1
    | none => 1
  let new_post : Post :=
    { id := post_id, title := post.title, content := post.content,
      author := post.author, date_posted := "January 15, 2026" }
  (new_post, ps ++ [new_post])

/-- src/main.py lines 123-125, GET /api/login: the body is pass, returning None. -/
def login : Option String := none

/-- src/main.py lines 128-130, GET /api/register: the body is pass, returning None. -/
def register : Option String := none

/-- Modelled from the spec: a handler with no response model returning Python None is
serialized by the framework as a 200 response with JSON null body (the silently
empty 200 the spec forbids). -/
def handler_json_response (result : Option String) : Response :=
  match result with
  | none => { status_code := 200, body := .jsonNull }
  | some s => { status_code := 200, body := .jsonDetail s }

/-- The message chosen by the StarletteHTTPException handler (src/main.py lines
138-142): the detail when truthy, else the generic fallback. -/
def http_exception_message (exception : HTTPExc) : String :=
  match exception.detail with
  | some d => if d.isEmpty then "An error occurred. Please check your request and try again." else d
  | none => "An error occurred. Please check your request and try again."

/-- src/main.py lines 136-158: the StarletteHTTPException handler. JSON detail object
with the original status code when the request path starts with /api; otherwise the
error.html render carrying status_code, title and message, with the same status. -/
def general_http_exception_handler (path : String) (exception : HTTPExc) : Response :=
  let message := http_exception_message exception
  if str_startswith path "/api" then
    { status_code := exception.status_code, body := .jsonDetail message }
  else
    { status_code := exception.status_code,
      body := .errorPage exception.status_code (some exception.status_code) message }

/-- src/main.py lines 162-178: the RequestValidationError handler. Status 422 in both
branches; JSON list of structured field errors under /api, else the generic
invalid-input error.html render. -/
def validation_exception_handler (path : String) (errors : List String) : Response :=
  if str_startswith path "/api" then
    { status_code := 422, body := .jsonErrors errors }
  else
    { status_code := 422,
      body := .errorPage 422 (some 422) "Invalid request. Please check your input and try again." }

/-- The full GET /api/posts/\x7bpost_id\x7d response: the handler result on success, and on a
raised HTTPException the registered handler applied to the request path, which for
this route is the /api/posts path of the requested id. -/
def api_get_post_response (ps : List Post) (post_id : Int) : Response :=
  match get_post ps post_id with
  | .ok post => { status_code := 200, body := .jsonPost (postProjection post) }
  | .error e => general_http_exception_handler ("/api/posts/" ++ toString post_id) e

/-- Leading-substring tests are stable under appending on the right. -/
theorem charsStartWith_append (p a b : List Char) (h : charsStartWith p a = true) :
    charsStartWith p (a ++ b) = true := by
  induction p generalizing a with
  | nil => rfl
  | cons c cs ih =>
    cases a with
    | nil => simp [charsStartWith] at h
    | cons d ds =>
      simp [charsStartWith] at h ⊢
      exact ⟨h.1, ih ds h.2⟩

/-- Every concrete path of the GET /api/posts route starts with /api. -/
theorem api_posts_path_startswith (t : String) :
    str_startswith ("/api/posts/" ++ t) "/api" = true := by
  rw [str_startswith, String.data_append]
  exact charsStartWith_append _ _ _ (by decide)

/-- Claim C9: list-posts (API) is a pure read: the call leaves the store unchanged,
and a second call on the store left by the first returns the identical payload, in
identical (insertion) order. -/
theorem get_posts_pure_read_idempotent (s : List Post) :
    (get_posts s).2 = s ∧ (get_posts (get_posts s).2).1 = (get_posts s).1 :=
  ⟨rfl, rfl⟩

/-- Claim C6 evaluation: for every table and every requested id, get-user returns the
raw unfiltered Result over the whole table and never raises; in particular an absent
id does not produce the 404 the claim requires. -/
theorem get_user_never_404_ignores_id (table : List User) (user_id : Int) :
    get_user table user_id = .ok { rows := table } := rfl

/-- Claim C7 evaluation: at the absent post id 99, the page endpoint returns the
inline error render whose template context carries 404, but the HTTP status of the
response is 200, the TemplateResponse default, not the 404 the claim requires. -/
theorem post_page_absent_id_has_status_200 :
    post_page posts 99 =
      { status_code := 200, body := .errorPage 404 none "Post not found" } := rfl

/-- Claim C8 evaluation: the login and register endpoints both return a silently
empty 200 response (JSON null body), not a defined not-implemented response. -/
theorem login_register_silently_empty_200 :
    handler_json_response login = { status_code := 200, body := .jsonNull } ∧
    handler_json_response register = { status_code := 200, body := .jsonNull } :=
  ⟨rfl, rfl⟩

/-- Claim C10: whenever create-user succeeds, the stored user's image_file is None
(the request's optional image is ignored), so its image_path is the default avatar
path. -/
theorem create_user_image_ignored_default_avatar (table : List User) (req : UserCreate)
    (u : User) (table2 : List User) (h : create_user table req = .ok (u, table2)) :
    u.image_file = none ∧ u.image_path = "/static/profile_pics/default.jpg" := by
  unfold create_user at h
  cases hfu : table.find? (fun x => x.username == req.username) with
  | some v => rw [hfu] at h; exact absurd h (by simp)
  | none =>
    rw [hfu] at h
    cases hfe : table.find? (fun x => x.email == req.email) with
    | some v => rw [hfe] at h; exact absurd h (by simp)
    | none =>
      rw [hfe] at h
      simp only [Except.ok.injEq, Prod.mk.injEq] at h
      obtain ⟨hu, -⟩ := h
      subst hu
      exact ⟨rfl, rfl⟩

/-- Witness for C10: creating alice with an image supplied still stores image_file
None and yields the default avatar path. -/
theorem create_user_image_ignored_default_avatar_witness :
    (⟨1, "alice", "alice@example.com", none⟩ : User).image_file = none ∧
    (⟨1, "alice", "alice@example.com", none⟩ : User).image_path
      = "/static/profile_pics/default.jpg" :=
  create_user_image_ignored_default_avatar []
    ⟨"alice", "alice@example.com", some "me.jpg"⟩ _ _ rfl

/-- Claim C3: a duplicate username yields 400 Username already exists regardless of
the email (the username check runs first); a unique username with a duplicate email
yields 400 Email already exists. -/
theorem create_user_username_before_email (table : List User) (req : UserCreate) :
    ((∃ u ∈ table, u.username = req.username) →
      create_user table req
        = .error { status_code := 400, detail := some "Username already exists" }) ∧
    ((∀ u ∈ table, u.username ≠ req.username) → (∃ u ∈ table, u.email = req.email) →
      create_user table req
        = .error { status_code := 400, detail := some "Email already exists" }) := by
  constructor
  · rintro ⟨u, hu, hname⟩
    have hne : table.find? (fun x => x.username == req.username) ≠ none := by
      intro hn
      exact (List.find?_eq_none.mp hn u hu) (by simp [hname])
    cases hfu : table.find? (fun x => x.username == req.username) with
    | none => exact absurd hfu hne
    | some v => simp [create_user, hfu]
  · rintro hall ⟨u, hu, hemail⟩
    have hfu : table.find? (fun x => x.username == req.username) = none :=
      List.find?_eq_none.mpr (fun x hx => by simp [hall x hx])
    have hne : table.find? (fun x => x.email == req.email) ≠ none := by
      intro hn
      exact (List.find?_eq_none.mp hn u hu) (by simp [hemail])
    cases hfe : table.find? (fun x => x.email == req.email) with
    | none => exact absurd hfe hne
    | some v => simp [create_user, hfu, hfe]

/-- Witness for C3: with alice registered, re-registering alice with the same email
reports the username conflict, and registering bob with alice's email reports the
email conflict. -/
theorem create_user_username_before_email_witness :
    create_user [⟨1, "alice", "alice@example.com", none⟩]
        ⟨"alice", "alice@example.com", none⟩
      = .error { status_code := 400, detail := some "Username already exists" } ∧
    create_user [⟨1, "alice", "alice@example.com", none⟩]
        ⟨"bob", "alice@example.com", none⟩
      = .error { status_code := 400, detail := some "Email already exists" } :=
  ⟨(create_user_username_before_email [⟨1, "alice", "alice@example.com", none⟩]
      ⟨"alice", "alice@example.com", none⟩).1 (by decide),
   (create_user_username_before_email [⟨1, "alice", "alice@example.com", none⟩]
      ⟨"bob", "alice@example.com", none⟩).2 (by decide) (by decide)⟩

/-- Claim C4: every status-coded failure keeps its original status code; under a path
starting with /api the body is the JSON detail object with the chosen message, else
the rendered error page carrying status_code, title and message; a missing (or
falsy empty) detail is replaced by the generic fallback, and a non-empty detail is
passed through unchanged. -/
theorem http_exception_dual_mode (path : String) (e : HTTPExc) :
    (general_http_exception_handler path e).status_code = e.status_code ∧
    (str_startswith path "/api" = true →
      (general_http_exception_handler path e).body
        = .jsonDetail (http_exception_message e)) ∧
    (str_startswith path "/api" = false →
      (general_http_exception_handler path e).body
        = .errorPage e.status_code (some e.status_code) (http_exception_message e)) ∧
    ((e.detail = none ∨ e.detail = some "") →
      http_exception_message e
        = "An error occurred. Please check your request and try again.") ∧
    (∀ d, e.detail = some d → d ≠ "" →
      http_exception_message e = d) := by
  refine ⟨?_, ?_, ?_, ?_, ?_⟩
  · unfold general_http_exception_handler
    split <;> rfl
  · intro h; simp [general_http_exception_handler, h]
  · intro h; simp [general_http_exception_handler, h]
  · rintro (h | h) <;> simp [http_exception_message, h] <;> decide
  · intro d hd hne
    simp [http_exception_message, hd, String.isEmpty_iff, hne]

/-- Witness for C4: a 400 with a detail under /api becomes the JSON detail object,
and a 404 with no detail outside /api becomes the error page with the fallback
message, both keeping their status codes. -/
theorem http_exception_dual_mode_witness :
    (general_http_exception_handler "/api/users/7"
        ⟨400, some "Username already exists"⟩).status_code = 400 ∧
    (general_http_exception_handler "/api/users/7"
        ⟨400, some "Username already exists"⟩).body
      = .jsonDetail "Username already exists" ∧
    (general_http_exception_handler "/posts/7" ⟨404, none⟩).body
      = .errorPage 404 (some 404)
          "An error occurred. Please check your request and try again." := by
  refine ⟨?_, ?_, ?_⟩
  · exact (http_exception_dual_mode "/api/users/7" ⟨400, some "Username already exists"⟩).1
  · have h := (http_exception_dual_mode "/api/users/7"
      ⟨400, some "Username already exists"⟩).2.1 (by decide)
    rw [h]
    have hm := (http_exception_dual_mode "/api/users/7"
      ⟨400, some "Username already exists"⟩).2.2.2.2 "Username already exists" rfl (by decide)
    rw [hm]
  · have h := (http_exception_dual_mode "/posts/7" ⟨404, none⟩).2.2.1 (by decide)
    rw [h]
    have hm := (http_exception_dual_mode "/posts/7" ⟨404, none⟩).2.2.2.1 (Or.inl rfl)
    rw [hm]

/-- Claim C5: every request-validation failure is normalized to status 422; under a
path starting with /api the body is the JSON list of structured field errors, else
the generic invalid-input error page, both at 422. -/
theorem validation_dual_mode_422 (path : String) (errors : List String) :
    (validation_exception_handler path errors).status_code = 422 ∧
    (str_startswith path "/api" = true →
      (validation_exception_handler path errors).body = .jsonErrors errors) ∧
    (str_startswith path "/api" = false →
      (validation_exception_handler path errors).body
        = .errorPage 422 (some 422)
            "Invalid request. Please check your input and try again.") := by
  refine ⟨?_, ?_, ?_⟩
  · unfold validation_exception_handler
    split <;> rfl
  · intro h; simp [validation_exception_handler, h]
  · intro h; simp [validation_exception_handler, h]

/-- Witness for C5: a missing-title error on POST /api/posts yields the 422 JSON
error list, and the same failure on a page path yields the 422 invalid-input page. -/
theorem validation_dual_mode_422_witness :
    (validation_exception_handler "/api/posts" ["title field required"]).status_code = 422 ∧
    (validation_exception_handler "/api/posts" ["title field required"]).body
      = .jsonErrors ["title field required"] ∧
    (validation_exception_handler "/posts" ["title field required"]).body
      = .errorPage 422 (some 422)
          "Invalid request. Please check your input and try again." :=
  ⟨(validation_dual_mode_422 "/api/posts" ["title field required"]).1,
   (validation_dual_mode_422 "/api/posts" ["title field required"]).2.1 (by decide),
   (validation_dual_mode_422 "/posts" ["title field required"]).2.2 (by decide)⟩

/-- Claim C2: for every post id absent from the store, get-post raises 404 with
detail Post not found, and the normalized API response is the 404 JSON detail
object, since the route's path starts with /api. -/
theorem get_post_absent_404_json (ps : List Post) (post_id : Int)
    (h : ∀ p ∈ ps, p.id ≠ post_id) :
    get_post ps post_id = .error { status_code := 404, detail := some "Post not found" } ∧
    api_get_post_response ps post_id
      = { status_code := 404, body := .jsonDetail "Post not found" } := by
  have hfind : ps.find? (fun p => p.id == post_id) = none :=
    List.find?_eq_none.mpr (fun p hp => by simp [h p hp])
  have hget : get_post ps post_id
      = .error { status_code := 404, detail := some "Post not found" } := by
    simp [get_post, hfind]
  refine ⟨hget, ?_⟩
  unfold api_get_post_response
  rw [hget]
  simp [general_http_exception_handler, api_posts_path_startswith, http_exception_message]
  decide

/-- Witness for C2: id 99 is absent from the initial store and the API response is
the 404 JSON detail object. -/
theorem get_post_absent_404_json_witness :
    api_get_post_response posts 99
      = { status_code := 404, body := .jsonDetail "Post not found" } :=
  (get_post_absent_404_json posts 99 (by decide)).2

/-- Antisymmetry of the integer order, as the instance the max? lemma expects. -/
instance : Std.Antisymm (fun (a b : Int) => a ≤ b) :=
  ⟨fun h h2 => le_antisymm h h2⟩

/-- Every stored post id is strictly below the id create-post assigns. -/
theorem create_post_id_gt (ps : List Post) (req : PostCreate) :
    ∀ q ∈ ps, q.id < (create_post ps req).1.id := by
  intro q hq
  cases hps : (ps.map (fun p => p.id)).max? with
  | none =>
    cases ps with
    | nil => cases hq
    | cons a as => simp [List.max?] at hps
  | some m =>
    have hm := (List.max?_eq_some_iff (fun _ => le_refl _) (fun a b => max_choice a b)
      (fun a b c => max_le_iff)).mp hps
    have hq2 : q.id ≤ m := hm.2 q.id (List.mem_map_of_mem _ hq)
    have hid : (create_post ps req).1.id = m + 1 := by simp [create_post, hps]
    omega

/-- Claim C1: for every valid create-post request (non-empty title, content, author)
the assigned id is 1 on an empty store and one more than the maximum stored id
otherwise; the new post is appended to the store; and get-post on the new store at
the assigned id returns exactly the new post. -/
theorem create_post_next_id_append_retrievable (ps : List Post) (req : PostCreate)
    (ht : req.title ≠ "") (hc : req.content ≠ "") (ha : req.author ≠ "") :
    (ps = [] → (create_post ps req).1.id = 1) ∧
    (∀ m : Int, m ∈ ps.map (fun p => p.id) → (∀ b ∈ ps.map (fun p => p.id), b ≤ m) →
      (create_post ps req).1.id = m + 1) ∧
    (create_post ps req).2 = ps ++ [(create_post ps req).1] ∧
    get_post (create_post ps req).2 (create_post ps req).1.id
      = .ok (create_post ps req).1 := by
  refine ⟨?_, ?_, rfl, ?_⟩
  · intro hps
    subst hps
    rfl
  · intro m hmem hub
    have hps : (ps.map (fun p => p.id)).max? = some m :=
      (List.max?_eq_some_iff (fun _ => le_refl _) (fun a b => max_choice a b)
        (fun a b c => max_le_iff)).mpr ⟨hmem, hub⟩
    simp [create_post, hps]
  · have hnone : ps.find? (fun p => p.id == (create_post ps req).1.id) = none :=
      List.find?_eq_none.mpr (fun q hq => by
        have := create_post_id_gt ps req q hq
        simp
        omega)
    have happ : (create_post ps req).2 = ps ++ [(create_post ps req).1] := rfl
    rw [get_post, happ, List.find?_append, hnone]
    simp

/-- Witness for C1: creating a post on the initial two-post store yields a post that
get-post immediately retrieves at its assigned id. -/
theorem create_post_next_id_append_retrievable_witness :
    get_post (create_post posts ⟨"T", "C", "A"⟩).2 (create_post posts ⟨"T", "C", "A"⟩).1.id
      = .ok (create_post posts ⟨"T", "C", "A"⟩).1 :=
  (create_post_next_id_append_retrievable posts ⟨"T", "C", "A"⟩
    (by decide) (by decide) (by decide)).2.2.2

end FastapiBlogs
